import Mathlib

/- Shallow embedding of the iproto binary-protocol front end of the server
   (src/box/iproto.cc): the buffer model, input-buffer rotation, the output
   flusher, process-wide throttling, the framing loop and the connection
   lifecycle, together with theorems checking the specification claims.
   Machine pointers are replaced by offsets from the buffer base; byte
   buffers are lists of byte values. -/

namespace Iproto

/-- IPROTO_MSG_MAX from iproto.cc: the cap on iproto messages in flight. -/
def IPROTO_MSG_MAX : Nat := 768

/-- Modelled from the spec: the frame length prefix is a MsgPack packed
unsigned integer (the msgpuck helpers mp_typeof, mp_check_uint and
mp_decode_uint live outside src/). This gives the byte length of a packed
unsigned integer from its first byte, or none when the byte does not begin
a packed unsigned integer, that is when mp_typeof is not MP_UINT. -/
def mpUintLen (b : Nat) : Option Nat :=
  if b < 0x80 then some 1
  else if b = 0xcc then some 2
  else if b = 0xcd then some 3
  else if b = 0xce then some 5
  else if b = 0xcf then some 9
  else none

/-- Modelled from the spec: mp_decode_uint of the msgpuck library. A fixed
unsigned integer is its own first byte; the wider forms carry the value
big-endian in the bytes that follow the tag byte. -/
def mpDecodeUint (l : List Nat) : Nat :=
  match l with
  | [] => 0
  | b :: rest =>
    if b < 0x80 then b
    else (rest.take ((mpUintLen b).getD 1 - 1)).foldl (fun a x => a * 256 + x) 0

/-- Input buffer (struct ibuf of the small library as used by iproto.cc).
Offsets are relative to the buffer base: rpos is the read position, data
holds the bytes written so far (positions 0 to wpos), capacity is the
allocated end offset. -/
structure Ibuf where
  rpos : Nat
  data : List Nat
  capacity : Nat
deriving Repr, DecidableEq

/-- Write position of an ibuf: one past the last byte written. -/
def Ibuf.wpos (b : Ibuf) : Nat := b.data.length

/-- Modelled from the spec: ibuf_used, the byte count between the read and
the write position; the spec calls an ibuf with zero used bytes empty. -/
def ibuf_used (b : Ibuf) : Nat := b.wpos - b.rpos

/-- Modelled from the spec: ibuf_unused, the free room after wpos. -/
def ibuf_unused (b : Ibuf) : Nat := b.capacity - b.wpos

/-- Modelled from the spec: ibuf_pos, the write offset from the buffer base;
pos equal to parse_size means everything written since the last reset is
the unparsed tail. -/
def ibuf_pos (b : Ibuf) : Nat := b.wpos

/-- Modelled from the spec: ibuf_reset rewinds both positions to offset 0. -/
def ibuf_reset (b : Ibuf) : Ibuf := { rpos := 0, data := [], capacity := b.capacity }

/-- Modelled from the spec: the reserve contract of the small library.
When the free room after wpos is below n, used bytes are compacted to the
buffer base and the capacity grows so that at least n bytes are unused. -/
def ibuf_reserve (b : Ibuf) (n : Nat) : Ibuf :=
  if n ≤ ibuf_unused b then b
  else { rpos := 0, data := b.data.drop b.rpos,
         capacity := max b.capacity (ibuf_used b + n) }

/-- Allocator configuration: iobuf_readahead and iobuf_max_size(), both set
outside src/. -/
structure IobufCfg where
  readahead : Nat
  maxSize : Nat
deriving Repr, DecidableEq

/-- iproto_reset_input from iproto.cc: rewind a fully processed input buffer
to the start; an oversized buffer is released and recreated at readahead
size instead. Either way both positions end at offset 0. -/
def iproto_reset_input (cfg : IobufCfg) (b : Ibuf) : Ibuf :=
  if b.capacity < cfg.maxSize then ibuf_reset b
  else { rpos := 0, data := [], capacity := cfg.readahead }

/-- Output buffer: size is the total byte count appended by TX since
creation or reset (the savepoint a commit would record now), wpos is the
drain savepoint and wend the commit savepoint, all in bytes from the base.
The scatter-gather segment layout of struct obuf is abstracted to offsets. -/
structure Obuf where
  size : Nat
  wpos : Nat
  wend : Nat
deriving Repr, DecidableEq

/-- Modelled from the spec: obuf_used, the pending committed bytes between
the drain position and the commit position (the spec writes wpos < wend for
a buffer with pending bytes). -/
def obuf_used (o : Obuf) : Nat := o.wend - o.wpos

/-- Modelled from the spec: obuf_size, the total bytes appended since the
buffer was created or reset; zero means nothing was ever written to it. -/
def obuf_size (o : Obuf) : Nat := o.size

/-- Modelled from the spec: obuf_reset rewinds every position to offset 0. -/
def obuf_reset : Obuf := ⟨0, 0, 0⟩

/-- obuf_create_svp: the savepoint for the current append position. -/
def obuf_create_svp (o : Obuf) : Nat := o.size

/-- A libev watcher as iproto.cc uses it: the registered file descriptor
(-1 is the closed sentinel) and whether the watcher is active. -/
structure Watcher where
  fd : Int
  active : Bool
deriving Repr, DecidableEq

/-- evio_has_fd: the watcher still holds an open file descriptor. -/
def evio_has_fd (w : Watcher) : Bool := decide (0 ≤ w.fd)

/-- Context of one client connection (struct iproto_connection): the two
rotating input buffers, the two paired output buffers, the current-buffer
selector, the unparsed tail length, the two watchers, and the lifecycle
flags (session allocated, pre-allocated disconnect message still held,
membership in stopped_connections, output buffers destroyed by TX). -/
structure Conn where
  ibuf0 : Ibuf
  ibuf1 : Ibuf
  obuf0 : Obuf
  obuf1 : Obuf
  pIbuf : Bool
  parseSize : Nat
  inputW : Watcher
  outputW : Watcher
  sessionLive : Bool
  hasDisconnectMsg : Bool
  inStopList : Bool
  obufsDestroyed : Bool
deriving Repr, DecidableEq

/-- Input buffer at index i (false picks ibuf[0]). -/
def Conn.ibufAt (c : Conn) (i : Bool) : Ibuf := if i then c.ibuf1 else c.ibuf0

/-- Output buffer at index i; obuf[k] is paired with ibuf[k], so
iproto_connection_output_by_input is this map applied to the same index. -/
def Conn.obufAt (c : Conn) (i : Bool) : Obuf := if i then c.obuf1 else c.obuf0

/-- Replace the input buffer at index i. -/
def Conn.setIbufAt (c : Conn) (i : Bool) (b : Ibuf) : Conn :=
  if i then { c with ibuf1 := b } else { c with ibuf0 := b }

/-- Replace the output buffer at index i. -/
def Conn.setObufAt (c : Conn) (i : Bool) (o : Obuf) : Conn :=
  if i then { c with obuf1 := o } else { c with obuf0 := o }

/-- iproto_connection_next_input: with two buffers, the one not currently
receiving input; iproto_connection_prev_input is the same buffer. -/
def iproto_connection_next_input (c : Conn) : Bool := !c.pIbuf

/-- iproto_connection_is_idle: both input buffers hold zero used bytes, so
no in-flight message references the connection. -/
def iproto_connection_is_idle (c : Conn) : Bool :=
  ibuf_used c.ibuf0 == 0 && ibuf_used c.ibuf1 == 0

/-- The to_read computation at the top of iproto_connection_input_buffer:
3 bytes (the smallest valid request) unless the unparsed tail already holds
a complete packed length prefix, in which case the decoded length. -/
def iproto_to_read (c : Conn) : Nat :=
  let old := c.ibufAt c.pIbuf
  if c.parseSize == 0 then 3
  else
    let tail := old.data.drop (old.wpos - c.parseSize)
    match tail with
    | [] => 3
    | b :: _ =>
      match mpUintLen b with
      | some l => if l ≤ tail.length then mpDecodeUint tail else 3
      | none => 3

/-- Which branch of iproto_connection_input_buffer was taken. -/
inductive InBufTag where
  | keep | grow | noRoom | rotate
deriving Repr, DecidableEq

/-- Result of iproto_connection_input_buffer: the branch taken and the
updated connection; noRoom stands for the NULL return. -/
structure InBufOut where
  tag : InBufTag
  conn : Conn
deriving Repr, DecidableEq

/-- The decision tree of iproto_connection_input_buffer, in source order:
keep the current buffer when it has room for to_read bytes; grow it in
place when everything used is the unparsed tail and either nothing was
consumed from it yet or the paired obuf was never written; pause input
when the other pair is still busy; otherwise rotate. -/
def iproto_inbuf_tag (c : Conn) : InBufTag :=
  let oldIbuf := c.ibufAt c.pIbuf
  let oldObuf := c.obufAt c.pIbuf
  let toRead := iproto_to_read c
  if toRead ≤ ibuf_unused oldIbuf then .keep
  else if ibuf_used oldIbuf == c.parseSize &&
          (ibuf_pos oldIbuf == c.parseSize || obuf_size oldObuf == 0) then .grow
  else if ibuf_used (c.ibufAt (!c.pIbuf)) != 0 ||
          obuf_used (c.obufAt (!c.pIbuf)) != 0 then .noRoom
  else .rotate

/-- The state change of the rotation branch of
iproto_connection_input_buffer: reserve to_read plus parse_size bytes in
the other buffer, truncate the unparsed tail off the old buffer, copy the
tail into the new buffer, reset the old pair when it became fully idle,
and switch p_ibuf. -/
def iproto_inbuf_rotate (cfg : IobufCfg) (c : Conn) : Conn :=
  let oldIdx := c.pIbuf
  let oldIbuf := c.ibufAt oldIdx
  let oldObuf := c.obufAt oldIdx
  let newIdx := !oldIdx
  let newIbuf1 := ibuf_reserve (c.ibufAt newIdx) (iproto_to_read c + c.parseSize)
  let tail := oldIbuf.data.drop (oldIbuf.wpos - c.parseSize)
  let oldIbuf1 := { oldIbuf with data := oldIbuf.data.take (oldIbuf.wpos - c.parseSize) }
  let trio :=
    if c.parseSize != 0 then
      let newIbuf2 := { newIbuf1 with data := newIbuf1.data ++ tail }
      if ibuf_used oldIbuf1 == 0 && obuf_used oldObuf == 0 then
        (iproto_reset_input cfg oldIbuf1, obuf_reset, newIbuf2)
      else (oldIbuf1, oldObuf, newIbuf2)
    else (oldIbuf1, oldObuf, newIbuf1)
  let c1 := ((c.setIbufAt oldIdx trio.1).setObufAt oldIdx trio.2.1).setIbufAt newIdx trio.2.2
  { c1 with pIbuf := newIdx }

/-- iproto_connection_input_buffer from iproto.cc: pick an input buffer
with room for to_read bytes, growing the current buffer or rotating to the
other pair when possible, or report that input must pause. -/
def iproto_connection_input_buffer (cfg : IobufCfg) (c : Conn) : InBufOut :=
  match iproto_inbuf_tag c with
  | .keep => ⟨.keep, c⟩
  | .grow => ⟨.grow, c.setIbufAt c.pIbuf (ibuf_reserve (c.ibufAt c.pIbuf) (iproto_to_read c))⟩
  | .noRoom => ⟨.noRoom, c⟩
  | .rotate => ⟨.rotate, iproto_inbuf_rotate cfg c⟩

/-- Result of one iproto_flush call: the return code (1 nothing to send,
0 full drain, -1 partial write or busy socket), the updated connection, the
index of the obuf bytes were written from, and the byte count written. -/
structure FlushOut where
  rc : Int
  conn : Conn
  sentFrom : Option Bool
  sent : Nat
deriving Repr, DecidableEq

/-- The buffer selection at the top of iproto_flush: the obuf paired with
the previous input buffer when it has pending committed bytes, else the
current obuf unless the previous ibuf still has in-flight requests or the
current obuf is empty, in which case there is nothing to send. -/
def iproto_flush_sel (c : Conn) : Option Bool :=
  let prevIdx := iproto_connection_next_input c
  if obuf_used (c.obufAt prevIdx) == 0 then
    if ibuf_used (c.ibufAt prevIdx) > 0 || obuf_used (c.obufAt c.pIbuf) == 0 then none
    else some c.pIbuf
  else some prevIdx

/-- iproto_flush from iproto.cc: select a buffer pair, then drain it by
one vectored write. The socket is abstracted by canWrite, the byte count
this writev can consume; the actual write is the minimum of canWrite and
the pending committed bytes. On a full drain of an obuf whose paired ibuf
is empty both buffers of the pair are recycled to offset 0; on a full
drain otherwise the drain savepoint jumps to the commit savepoint; on a
partial write it advances by the bytes written. -/
def iproto_flush (cfg : IobufCfg) (c : Conn) (canWrite : Nat) : FlushOut :=
  match iproto_flush_sel c with
  | none => ⟨1, c, none, 0⟩
  | some k =>
    let ob := c.obufAt k
    let ib := c.ibufAt k
    let nwr := min canWrite (obuf_used ob)
    if 0 < nwr then
      if ob.wpos + nwr == ob.wend then
        if ibuf_used ib == 0 then
          ⟨0, (c.setObufAt k obuf_reset).setIbufAt k (iproto_reset_input cfg ib), some k, nwr⟩
        else
          ⟨0, c.setObufAt k { ob with wpos := ob.wend }, some k, nwr⟩
      else
        ⟨-1, c.setObufAt k { ob with wpos := ob.wpos + nwr }, some k, nwr⟩
    else ⟨-1, c, none, 0⟩

/-- Result of one on-output event: the updated connection, every drain the
loop performed (obuf index and byte count, in order), and whether a read
event was fed back after a full drain. -/
structure OutEvOut where
  conn : Conn
  drains : List (Bool × Nat)
  fedInputEvent : Bool
deriving Repr, DecidableEq

/-- The while loop of iproto_connection_on_output. Each iteration consumes
one canWrite amount from the oracle list (an empty oracle stands for a busy
socket). After a full drain, when the read watcher is inactive and the
connection is not on the stopped list, a read event is fed. The loop runs
at most three iterations (two full drains and a final selection), so the
fuel below never reaches zero. -/
def iproto_on_output_loop (cfg : IobufCfg) (c : Conn) (oracle : List Nat)
    (fed : Bool) (acc : List (Bool × Nat)) : Nat → OutEvOut
  | 0 => ⟨c, acc.reverse, fed⟩
  | fuel + 1 =>
    let w := oracle.headD 0
    let r := iproto_flush cfg c w
    if r.rc > 0 then
      ⟨{ r.conn with outputW := { r.conn.outputW with active := false } }, acc.reverse, fed⟩
    else if r.rc < 0 then
      ⟨{ r.conn with outputW := { r.conn.outputW with active := true } },
       (match r.sentFrom with | some k => ((k, r.sent) :: acc).reverse | none => acc.reverse),
       fed⟩
    else
      let fed1 := fed || (!r.conn.inputW.active && !r.conn.inStopList)
      let acc1 := match r.sentFrom with | some k => (k, r.sent) :: acc | none => acc
      iproto_on_output_loop cfg r.conn (oracle.tail) fed1 acc1 fuel

/-- iproto_connection_on_output from iproto.cc: run the flush loop; when
the loop ends with nothing to send the write watcher is stopped, and on a
partial write it stays armed. -/
def iproto_connection_on_output (cfg : IobufCfg) (c : Conn) (oracle : List Nat) : OutEvOut :=
  iproto_on_output_loop cfg c oracle false [] (oracle.length + 2)

/-- Process-wide NET state: the mempool counters (active connections and
allocated messages) and the FIFO list stopped_connections of connection
identifiers, head first. -/
structure Net where
  connCount : Nat
  msgCount : Nat
  stopped : List Nat
deriving Repr, DecidableEq

/-- iproto_must_stop_input from iproto.cc: too few spare messages remain,
that is more messages are allocated than active connections plus
IPROTO_MSG_MAX. -/
def iproto_must_stop_input (n : Net) : Bool :=
  decide (n.msgCount > n.connCount + IPROTO_MSG_MAX)

/-- iproto_resume from iproto.cc: when the stopped list is non-empty and
the throttle no longer fires, feed a read event to the first entry of
stopped_connections; the entry is removed later, by the read event handler
itself. Returns the identifier of the connection that receives the event. -/
def iproto_resume (n : Net) : Option Nat :=
  if n.stopped.isEmpty then none
  else if iproto_must_stop_input n then none
  else n.stopped.head?

/-- iproto_msg_delete from iproto.cc at the process-wide level: return the
message to the pool (the counter drops by one) and run the resume check. -/
def iproto_msg_delete (n : Net) : Net × Option Nat :=
  let n1 : Net := { n with msgCount := n.msgCount - 1 }
  (n1, iproto_resume n1)

/-- iproto_connection_stop from iproto.cc at the process-wide level: the
connection is appended to the tail of stopped_connections (its read watcher
is stopped by the caller side of the model). -/
def iproto_connection_stop (n : Net) (cid : Nat) : Net :=
  { n with stopped := n.stopped ++ [cid] }

/-- Errors raised by the framing and decoding path: ER_INVALID_MSGPACK on a
bad packet length, ER_UNKNOWN_REQUEST_TYPE on an unrecognized opcode, and a
generic tag for the other decode failures raised by the xrow helpers. -/
inductive IErr where
  | invalidMsgpack
  | unknownRequestType (code : Nat)
  | clientError (tag : Nat)
deriving Repr, DecidableEq

/-- Decoded request header (struct xrow_header as used here): the request
type code, the sync identifier and the schema version. -/
structure Header where
  htype : Nat
  sync : Nat
  schemaVersion : Nat
deriving Repr, DecidableEq

/-- Modelled from the spec: the request type codes of iproto_constants.h
(outside src/); only their identity matters to the routing switch. -/
def IPROTO_SELECT : Nat := 1

/-- Request type code for INSERT. -/
def IPROTO_INSERT : Nat := 2

/-- Request type code for REPLACE. -/
def IPROTO_REPLACE : Nat := 3

/-- Request type code for UPDATE. -/
def IPROTO_UPDATE : Nat := 4

/-- Request type code for DELETE. -/
def IPROTO_DELETE : Nat := 5

/-- Request type code for CALL_16. -/
def IPROTO_CALL_16 : Nat := 6

/-- Request type code for AUTH. -/
def IPROTO_AUTH : Nat := 7

/-- Request type code for EVAL. -/
def IPROTO_EVAL : Nat := 8

/-- Request type code for UPSERT. -/
def IPROTO_UPSERT : Nat := 9

/-- Request type code for CALL. -/
def IPROTO_CALL : Nat := 10

/-- Request type code for PING. -/
def IPROTO_PING : Nat := 64

/-- Request type code for JOIN. -/
def IPROTO_JOIN : Nat := 65

/-- Request type code for SUBSCRIBE. -/
def IPROTO_SUBSCRIBE : Nat := 66

/-- The two-hop route a message is initialized with, by TX hop family. -/
inductive Route where
  | routeSelect | routeProcess1 | routeMisc | routeJoin | routeSubscribe
deriving Repr, DecidableEq

/-- A framed request message (struct iproto_msg): the buffer pair indices,
the byte length in the input buffer (which doubles as a reference count on
the connection), the decoded header when header decoding succeeded, the
route, and the post-TX commit savepoint. -/
structure Msg where
  pIbuf : Bool
  pObuf : Bool
  len : Nat
  header : Option Header
  route : Route
  writeEnd : Nat
deriving Repr, DecidableEq

/-- External collaborators of the framing loop: header decoding and body
decoding (the xrow helpers live outside src/ and may fail), the byte count
an error reply appends to an obuf, and the sync value read from a header
that was never decoded (mempool memory is not zeroed). -/
structure DecodeEnv where
  hdrO : List Nat → Except IErr Header
  bodyO : Header → Except IErr Unit
  errSize : Nat
  garbageSync : Nat

/-- iproto_decode_msg from iproto.cc: decode the header, then switch on the
request type to pick a route, decoding DML, call and auth bodies inline;
JOIN and SUBSCRIBE set the stop-input flag; an unrecognized type raises
ER_UNKNOWN_REQUEST_TYPE. Errors carry the header when it was decoded. -/
def iproto_decode_msg (hdrR : Except IErr Header) (bodyO : Header → Except IErr Unit) :
    Except (IErr × Option Header) (Header × Route × Bool) :=
  match hdrR with
  | .error e => .error (e, none)
  | .ok h =>
    let body (r : Route) (stop : Bool) : Except (IErr × Option Header) (Header × Route × Bool) :=
      match bodyO h with
      | .error e => .error (e, some h)
      | .ok _ => .ok (h, r, stop)
    if h.htype == IPROTO_SELECT then body .routeSelect false
    else if h.htype == IPROTO_INSERT || h.htype == IPROTO_REPLACE ||
            h.htype == IPROTO_UPDATE || h.htype == IPROTO_DELETE ||
            h.htype == IPROTO_UPSERT then body .routeProcess1 false
    else if h.htype == IPROTO_CALL_16 || h.htype == IPROTO_CALL ||
            h.htype == IPROTO_EVAL then body .routeMisc false
    else if h.htype == IPROTO_PING then .ok (h, .routeMisc, false)
    else if h.htype == IPROTO_JOIN then .ok (h, .routeJoin, true)
    else if h.htype == IPROTO_SUBSCRIBE then .ok (h, .routeSubscribe, true)
    else if h.htype == IPROTO_AUTH then body .routeMisc false
    else .error (.unknownRequestType h.htype, some h)

/-- State threaded through the framing loop of iproto_enqueue_batch: the
connection, the message pool count, the messages pushed to the tx pipe in
order, the error replies appended to the paired obuf (sync and error), the
count of write events fed after error replies, the request count, the
stop-input flag and whether a read event was fed at the end. -/
structure EnqSt where
  conn : Conn
  msgCount : Nat
  pushed : List Msg
  replies : List (Nat × IErr)
  fedOutputEvents : Nat
  nRequests : Nat
  stopInput : Bool
  fedInputEvent : Bool
deriving Repr

/-- The while loop of iproto_enqueue_batch. Each iteration frames one
request from the unparsed tail: a leading byte that is not a packed
unsigned integer raises ER_INVALID_MSGPACK out of the loop; a truncated
length prefix or body breaks the loop; otherwise a message is allocated
and decoded. On decode failure the scoped guard frees the message (the
pool count is unchanged), the read position advances past the bad request
at once, an error reply carrying the sync is appended and committed to the
paired obuf and a write event is fed when the write watcher is inactive.
In both outcomes parse_size drops by the full request length. The fuel is
at least parse_size plus one at entry, and every iteration that recurses
consumes at least one parsed byte, so fuel zero is never reached. -/
def iproto_enqueue_loop (env : DecodeEnv) (st : EnqSt) : Nat → Except (IErr × EnqSt) EnqSt
  | 0 => .ok st
  | fuel + 1 =>
    if st.stopInput || st.conn.parseSize == 0 then .ok st
    else
      let c := st.conn
      let idx := c.pIbuf
      let inb := c.ibufAt idx
      let tail := inb.data.drop (inb.wpos - c.parseSize)
      match tail with
      | [] => .ok st
      | b :: _ =>
        match mpUintLen b with
        | none => .error (.invalidMsgpack, st)
        | some lenlen =>
          if c.parseSize ≤ lenlen then .ok st
          else
            let len := mpDecodeUint tail
            let reqtotal := lenlen + len
            if c.parseSize < reqtotal then .ok st
            else
              let payload := (tail.drop lenlen).take len
              match iproto_decode_msg (env.hdrO payload) env.bodyO with
              | .ok (h, r, stop1) =>
                let m : Msg := { pIbuf := idx, pObuf := idx, len := reqtotal,
                                 header := some h, route := r, writeEnd := 0 }
                let st1 := { st with
                  conn := { c with parseSize := c.parseSize - reqtotal },
                  msgCount := st.msgCount + 1,
                  pushed := st.pushed ++ [m],
                  nRequests := st.nRequests + 1,
                  stopInput := stop1 }
                iproto_enqueue_loop env st1 fuel
              | .error (e, hOpt) =>
                let sync := match hOpt with | some h => h.sync | none => env.garbageSync
                let inb1 := { inb with rpos := inb.rpos + reqtotal }
                let ob := c.obufAt idx
                let ob1 : Obuf := { ob with size := ob.size + env.errSize }
                let ob2 : Obuf := { ob1 with wend := obuf_create_svp ob1 }
                let c1 := (c.setIbufAt idx inb1).setObufAt idx ob2
                let st1 := { st with
                  conn := { c1 with parseSize := c.parseSize - reqtotal },
                  replies := st.replies ++ [(sync, e)],
                  fedOutputEvents := st.fedOutputEvents +
                    (if c.outputW.active then 0 else 1) }
                iproto_enqueue_loop env st1 fuel

/-- iproto_enqueue_batch from iproto.cc: run the framing loop over the
unparsed tail, then either stop both watchers when a JOIN or SUBSCRIBE took
over the socket, or feed a read event unless exactly one request was framed
and no partial request remains. An ER_INVALID_MSGPACK raise escapes before
any of that. -/
def iproto_enqueue_batch (env : DecodeEnv) (c : Conn) (msgCount : Nat) :
    Except (IErr × EnqSt) EnqSt :=
  let st0 : EnqSt := { conn := c, msgCount := msgCount, pushed := [], replies := [],
                       fedOutputEvents := 0, nRequests := 0, stopInput := false,
                       fedInputEvent := false }
  match iproto_enqueue_loop env st0 (c.parseSize + 1) with
  | .error e => .error e
  | .ok st =>
    if st.stopInput then
      .ok { st with conn := { st.conn with
              inputW := { st.conn.inputW with active := false },
              outputW := { st.conn.outputW with active := false } } }
    else if st.nRequests != 1 || st.conn.parseSize != 0 then
      .ok { st with fedInputEvent := true }
    else .ok st

/-- iproto_connection_close from iproto.cc. On the first call (the watcher
still holds the fd) both watchers are stopped, the fd is closed with -1
left as the sentinel in both watchers, and the unparsed tail is truncated
off the current input buffer. Then, on every call, if the connection is
idle the pre-allocated disconnect message is pushed to TX; the source
asserts that the message is still available, and the model returns none
when that assertion fails. The connection always leaves the stopped list.
The Boolean result reports whether the disconnect message was pushed.
This definition is the first-call block: watchers stopped, fds set to -1,
the unparsed tail truncated off the current input buffer. -/
def iproto_close_fd_state (c : Conn) : Conn :=
  let idx := c.pIbuf
  let ib := c.ibufAt idx
  { (c.setIbufAt idx { ib with data := ib.data.take (ib.wpos - c.parseSize) }) with
    inputW := { fd := -1, active := false },
    outputW := { fd := -1, active := false } }

/-- iproto_connection_close, second part: push the disconnect message when
the connection is idle, with none standing for the failed assertion that
the message is still held. -/
def iproto_connection_close (c : Conn) : Option (Conn × Bool) :=
  let c1 := if evio_has_fd c.inputW then iproto_close_fd_state c else c
  if iproto_connection_is_idle c1 then
    if c1.hasDisconnectMsg then
      some ({ c1 with hasDisconnectMsg := false, inStopList := false }, true)
    else none
  else some ({ c1 with inStopList := false }, false)

/-- The read step of iproto_connection_on_input: sio_read appends up to
ibuf_unused bytes from the socket into the picked buffer and parse_size
grows by the bytes read. Returns the connection and the read count. -/
def iproto_read_into (c1 : Conn) (bytes : List Nat) : Conn × Nat :=
  let inb := c1.ibufAt c1.pIbuf
  let nrd := min bytes.length (ibuf_unused inb)
  ({ (c1.setIbufAt c1.pIbuf { inb with data := inb.data ++ bytes.take nrd }) with
     parseSize := c1.parseSize + nrd }, nrd)

/-- Result of one read event (iproto_connection_on_input): the updated
connection and process-wide state, the extra resume target fired while
waking from the stopped list, whether the throttle stopped this connection,
whether input paused for lack of buffer room, the bytes read, the batch
effects, the best-effort blocking error write (fd, error, sync) performed
in the catch block, and the close outcome. -/
structure InRes where
  conn : Conn
  net : Net
  resumeFed : Option Nat
  stoppedSelf : Bool
  pausedNoRoom : Bool
  readBytes : Nat
  pushed : List Msg
  replies : List (Nat × IErr)
  blockingErrWrite : Option (Int × IErr × Nat)
  closedNow : Bool
  pushedDisconnect : Bool
deriving Repr

/-- iproto_connection_on_input from iproto.cc. A connection waking from the
stopped list removes itself and resumes one more connection. Then, if the
message pool is depleted, the read watcher is stopped and the connection
joins the tail of stopped_connections before any byte is read. Otherwise an
input buffer is picked (input pauses when none is available), the socket is
read (none stands for EOF, an empty list for a busy socket), and the fully
read requests are framed; an ER_INVALID_MSGPACK raise from framing is
answered by a best-effort blocking error write with sync 0 followed by
closing the connection. The overall none result stands for an assertion
failure inside close. -/
def iproto_connection_on_input (cfg : IobufCfg) (env : DecodeEnv) (cid : Nat)
    (c : Conn) (net : Net) (recv : Option (List Nat)) : Option InRes :=
  let wake := c.inStopList
  let net0 := if wake then { net with stopped := net.stopped.erase cid } else net
  let c0 := if wake then { c with inStopList := false } else c
  let resumeFed := if wake then iproto_resume net0 else none
  if iproto_must_stop_input net0 then
    some { conn := { c0 with inputW := { c0.inputW with active := false }, inStopList := true },
           net := iproto_connection_stop net0 cid,
           resumeFed, stoppedSelf := true, pausedNoRoom := false, readBytes := 0,
           pushed := [], replies := [], blockingErrWrite := none,
           closedNow := false, pushedDisconnect := false }
  else
    let ibr := iproto_connection_input_buffer cfg c0
    if ibr.tag == InBufTag.noRoom then
      some { conn := { c0 with inputW := { c0.inputW with active := false } },
             net := net0, resumeFed, stoppedSelf := false, pausedNoRoom := true,
             readBytes := 0, pushed := [], replies := [], blockingErrWrite := none,
             closedNow := false, pushedDisconnect := false }
    else
      let c1 := ibr.conn
      match recv with
      | none =>
        (iproto_connection_close c1).map fun p =>
          { conn := p.1, net := net0, resumeFed, stoppedSelf := false,
            pausedNoRoom := false, readBytes := 0, pushed := [], replies := [],
            blockingErrWrite := none, closedNow := true, pushedDisconnect := p.2 }
      | some bytes =>
        if bytes.isEmpty then
          some { conn := { c1 with inputW := { c1.inputW with active := true } },
                 net := net0, resumeFed, stoppedSelf := false, pausedNoRoom := false,
                 readBytes := 0, pushed := [], replies := [], blockingErrWrite := none,
                 closedNow := false, pushedDisconnect := false }
        else
          let rd := iproto_read_into c1 bytes
          match iproto_enqueue_batch env rd.1 net0.msgCount with
          | .ok st =>
            some { conn := st.conn, net := { net0 with msgCount := st.msgCount },
                   resumeFed, stoppedSelf := false, pausedNoRoom := false,
                   readBytes := rd.2, pushed := st.pushed, replies := st.replies,
                   blockingErrWrite := none, closedNow := false,
                   pushedDisconnect := false }
          | .error (e, st) =>
            (iproto_connection_close st.conn).map fun p =>
              { conn := p.1, net := { net0 with msgCount := st.msgCount },
                resumeFed, stoppedSelf := false, pausedNoRoom := false,
                readBytes := rd.2, pushed := st.pushed, replies := st.replies,
                blockingErrWrite := some (rd.1.inputW.fd, e, 0),
                closedNow := true, pushedDisconnect := p.2 }

/-- Result of net_send_msg: the updated connection, whether a write event
was fed, and whether the connection was closed right here (with the
disconnect push outcome). -/
structure SendRes where
  conn : Conn
  fedOutputEvent : Bool
  closedNow : Bool
  pushedDisconnect : Bool
deriving Repr, DecidableEq

/-- net_send_msg from iproto.cc: retire the request by advancing the read
position past its bytes, publish the committed response by moving the
commit savepoint to the write_end of the message, then either feed a write
event (fd still open) or, when the fd is gone and the connection has just
become idle, close the connection. The message itself is then freed, which
is the Net-level iproto_msg_delete. This definition is the retire step:
rpos advances past the request bytes and wend publishes the committed
response. -/
def iproto_msg_retire (c : Conn) (m : Msg) : Conn :=
  let ib := c.ibufAt m.pIbuf
  let c1 := c.setIbufAt m.pIbuf { ib with rpos := ib.rpos + m.len }
  let ob := c1.obufAt m.pObuf
  c1.setObufAt m.pObuf { ob with wend := m.writeEnd }

/-- net_send_msg, second part: feed a write event, or close when the fd is
gone and the connection has just become idle. -/
def net_send_msg (c : Conn) (m : Msg) : Option SendRes :=
  let c2 := iproto_msg_retire c m
  if evio_has_fd c2.outputW then
    some { conn := c2, fedOutputEvent := !c2.outputW.active,
           closedNow := false, pushedDisconnect := false }
  else if iproto_connection_is_idle c2 then
    (iproto_connection_close c2).map fun p =>
      { conn := p.1, fedOutputEvent := false, closedNow := true,
        pushedDisconnect := p.2 }
  else
    some { conn := c2, fedOutputEvent := false, closedNow := false,
           pushedDisconnect := false }

/-- tx_process_disconnect from iproto.cc: run the on-disconnect triggers,
destroy the session, and destroy both output buffers in the TX thread. -/
def tx_process_disconnect (c : Conn) : Conn :=
  { c with sessionLive := false, obufsDestroyed := true }

/-- The assertions at the top of iproto_connection_delete: the connection
is idle, neither watcher holds an fd, the session is gone and the output
buffers were destroyed in TX. -/
def iproto_connection_delete_ok (c : Conn) : Bool :=
  iproto_connection_is_idle c && !evio_has_fd c.outputW && !evio_has_fd c.inputW &&
    !c.sessionLive && c.obufsDestroyed

/-- net_finish_disconnect from iproto.cc: recycle the connection; the model
returns none when the delete assertions fail. -/
def net_finish_disconnect (c : Conn) : Option Unit :=
  if iproto_connection_delete_ok c then some () else none

/-- Modelled from the spec: IPROTO_GREETING_SIZE, the fixed 128-byte
greeting block (the constant lives outside src/). -/
def IPROTO_GREETING_SIZE : Nat := 128

/-- The connect-message state net_send_greeting reads back from TX: the
close_connection flag and the write_end savepoint. -/
structure ConnectMsgSt where
  closeConnection : Bool
  writeEnd : Nat
deriving Repr, DecidableEq

/-- tx_process_connect from iproto.cc: create the session, append the
128-byte greeting to the paired obuf and run the on-connect triggers; on
any failure the catch block writes an error reply into the same obuf
(tx_reply_error, whose byte count is errSize) and marks the connection for
closing. The savepoint in the message always covers what was appended. -/
def tx_process_connect (c : Conn) (sessionOk : Bool) (triggerOk : Bool)
    (errSize : Nat) : Conn × ConnectMsgSt :=
  let idx := c.pIbuf
  let out := c.obufAt idx
  if sessionOk then
    let c1 := { c with sessionLive := true }
    let out1 : Obuf := { out with size := out.size + IPROTO_GREETING_SIZE }
    if triggerOk then
      (c1.setObufAt idx out1, ⟨false, obuf_create_svp out1⟩)
    else
      let out2 : Obuf := { out1 with size := out1.size + errSize }
      (c1.setObufAt idx out2, ⟨true, obuf_create_svp out2⟩)
  else
    let out2 : Obuf := { out with size := out.size + errSize }
    (c.setObufAt idx out2, ⟨true, obuf_create_svp out2⟩)

/-- Ordered observable events of the greeting hop in NET. -/
inductive GEvent where
  | socketWrite (fd : Int) (nbytes : Nat)
  | closedConn
  | freedMsg
  | fedOutputEvent
deriving Repr, DecidableEq

/-- net_send_greeting from iproto.cc. When TX flagged the connection for
closing, the whole obuf content (greeting so far plus the error reply) is
written to the socket with exceptions swallowed, the source asserts the
connection is idle, and only then the connection is closed and the connect
message freed. Otherwise the commit savepoint moves to write_end and a
write event is fed. The none result stands for an assertion failure. -/
def net_send_greeting (c : Conn) (m : ConnectMsgSt) : Option (Conn × List GEvent) :=
  let idx := c.pIbuf
  let out := c.obufAt idx
  if m.closeConnection then
    if iproto_connection_is_idle c then
      (iproto_connection_close c).map fun p =>
        (p.1, [GEvent.socketWrite c.outputW.fd (obuf_size out),
               GEvent.closedConn, GEvent.freedMsg])
    else none
  else
    some (c.setObufAt idx { out with wend := m.writeEnd },
          [GEvent.fedOutputEvent, GEvent.freedMsg])

/-- Fresh input buffer at readahead capacity, for concrete evaluations. -/
def demoIbuf : Ibuf := { rpos := 0, data := [], capacity := 16384 }

/-- Concrete allocator configuration for the witnesses. -/
def demoCfg : IobufCfg := { readahead := 16384, maxSize := 262144 }

/-- Freshly accepted connection on fd 3, for concrete evaluations. -/
def demoConn : Conn := {
  ibuf0 := demoIbuf, ibuf1 := demoIbuf,
  obuf0 := obuf_reset, obuf1 := obuf_reset,
  pIbuf := false, parseSize := 0,
  inputW := { fd := 3, active := true }, outputW := { fd := 3, active := false },
  sessionLive := true, hasDisconnectMsg := true, inStopList := false,
  obufsDestroyed := false }

/-- Concrete decode environment for the witnesses: every request header
decodes as a PING with sync 0x1234 and error replies occupy 32 bytes. -/
def demoEnv : DecodeEnv := {
  hdrO := fun _ => .ok { htype := IPROTO_PING, sync := 0x1234, schemaVersion := 0 },
  bodyO := fun _ => .ok (), errSize := 32, garbageSync := 0 }

/-- Connection whose older pair (index 1) has pending committed bytes. -/
def demoConnPrevPending : Conn :=
  { demoConn with obuf1 := { size := 10, wpos := 2, wend := 10 } }

/-- Connection with an empty older pair and a pending current obuf. -/
def demoConnCurPending : Conn :=
  { demoConn with obuf0 := { size := 6, wpos := 0, wend := 6 } }

/-- Connection forced into buffer rotation with the whole used region being
the unparsed tail and a drained, not yet reset, paired obuf: rpos 2, three
unparsed bytes whose length prefix decodes to 10, no free room, and obuf0
fully drained at size 4. -/
def demoConnRotate : Conn :=
  { demoConn with
    ibuf0 := { rpos := 2, data := [9, 9, 10, 0, 0], capacity := 5 },
    obuf0 := { size := 4, wpos := 4, wend := 4 },
    parseSize := 3 }

/-- Process-wide state with one connection and the pool exactly at the cap:
one allocated connection and 769 = 1 + IPROTO_MSG_MAX allocated messages. -/
def demoNet769 : Net := { connCount := 1, msgCount := 769, stopped := [] }

/-- Process-wide state with the pool over the cap. -/
def demoNet770 : Net := { connCount := 1, msgCount := 770, stopped := [] }

/-- Process-wide state over the cap with two stopped connections, 5 stopped
before 7. -/
def demoNetStopped : Net := { connCount := 1, msgCount := 770, stopped := [5, 7] }

/-- Decode environment whose every header decodes to the unknown opcode 99
with sync 0x55: iproto_decode_msg then raises ER_UNKNOWN_REQUEST_TYPE. -/
def demoEnvUnknown : DecodeEnv := {
  hdrO := fun _ => .ok { htype := 99, sync := 0x55, schemaVersion := 0 },
  bodyO := fun _ => .ok (), errSize := 32, garbageSync := 0 }

/-- Entry framing state holding one complete five-byte frame. -/
def demoEnqSt : EnqSt := {
  conn := { demoConn with
            ibuf0 := { rpos := 0, data := [4, 1, 2, 3, 4], capacity := 16384 },
            parseSize := 5 },
  msgCount := 1, pushed := [], replies := [], fedOutputEvents := 0,
  nRequests := 0, stopInput := false, fedInputEvent := false }

/-- The framing state after the unknown-opcode frame was consumed: the read
position advanced past the whole frame, a 32-byte error reply appended and
committed to obuf[0], a write event fed, and parse_size back to 0. -/
def demoEnqStStepped : EnqSt := {
  conn := { demoConn with
            ibuf0 := { rpos := 5, data := [4, 1, 2, 3, 4], capacity := 16384 },
            obuf0 := { size := 32, wpos := 0, wend := 32 },
            parseSize := 0 },
  msgCount := 1, pushed := [], replies := [(0x55, IErr.unknownRequestType 99)],
  fedOutputEvents := 1, nRequests := 0, stopInput := false, fedInputEvent := false }

/-- A retired-message descriptor for concrete evaluations. -/
def demoMsg : Msg :=
  { pIbuf := false, pObuf := false, len := 5, header := none,
    route := Route.routeMisc, writeEnd := 10 }

/-- Connection ready for recycling: idle, both fds closed, session gone,
output buffers destroyed in TX, disconnect message already consumed. -/
def demoConnDead : Conn :=
  { demoConn with
    inputW := { fd := -1, active := false },
    outputW := { fd := -1, active := false },
    sessionLive := false, obufsDestroyed := true, hasDisconnectMsg := false }

/- Accessor lemmas for the buffer-pair getters and setters. -/

@[simp] theorem Conn.obufAt_setIbufAt (c : Conn) (i j : Bool) (b : Ibuf) :
    (c.setIbufAt i b).obufAt j = c.obufAt j := by
  cases i <;> cases j <;> rfl

@[simp] theorem Conn.ibufAt_setObufAt (c : Conn) (i j : Bool) (o : Obuf) :
    (c.setObufAt i o).ibufAt j = c.ibufAt j := by
  cases i <;> cases j <;> rfl

theorem Conn.obufAt_setObufAt (c : Conn) (i j : Bool) (o : Obuf) :
    (c.setObufAt i o).obufAt j = if j = i then o else c.obufAt j := by
  cases i <;> cases j <;> simp [Conn.setObufAt, Conn.obufAt]

theorem Conn.ibufAt_setIbufAt (c : Conn) (i j : Bool) (b : Ibuf) :
    (c.setIbufAt i b).ibufAt j = if j = i then b else c.ibufAt j := by
  cases i <;> cases j <;> simp [Conn.setIbufAt, Conn.ibufAt]

@[simp] theorem Conn.pIbuf_setIbufAt (c : Conn) (i : Bool) (b : Ibuf) :
    (c.setIbufAt i b).pIbuf = c.pIbuf := by
  cases i <;> rfl

@[simp] theorem Conn.pIbuf_setObufAt (c : Conn) (i : Bool) (o : Obuf) :
    (c.setObufAt i o).pIbuf = c.pIbuf := by
  cases i <;> rfl

@[simp] theorem Conn.parseSize_setIbufAt (c : Conn) (i : Bool) (b : Ibuf) :
    (c.setIbufAt i b).parseSize = c.parseSize := by
  cases i <;> rfl

@[simp] theorem Conn.parseSize_setObufAt (c : Conn) (i : Bool) (o : Obuf) :
    (c.setObufAt i o).parseSize = c.parseSize := by
  cases i <;> rfl

@[simp] theorem Conn.inputW_setIbufAt (c : Conn) (i : Bool) (b : Ibuf) :
    (c.setIbufAt i b).inputW = c.inputW := by
  cases i <;> rfl

@[simp] theorem Conn.inputW_setObufAt (c : Conn) (i : Bool) (o : Obuf) :
    (c.setObufAt i o).inputW = c.inputW := by
  cases i <;> rfl

@[simp] theorem Conn.outputW_setIbufAt (c : Conn) (i : Bool) (b : Ibuf) :
    (c.setIbufAt i b).outputW = c.outputW := by
  cases i <;> rfl

@[simp] theorem Conn.outputW_setObufAt (c : Conn) (i : Bool) (o : Obuf) :
    (c.setObufAt i o).outputW = c.outputW := by
  cases i <;> rfl

@[simp] theorem iproto_reset_input_rpos (cfg : IobufCfg) (b : Ibuf) :
    (iproto_reset_input cfg b).rpos = 0 := by
  unfold iproto_reset_input ibuf_reset
  split <;> rfl

@[simp] theorem iproto_reset_input_wpos (cfg : IobufCfg) (b : Ibuf) :
    (iproto_reset_input cfg b).wpos = 0 := by
  unfold iproto_reset_input ibuf_reset Ibuf.wpos
  split <;> rfl

@[simp] theorem iproto_reset_input_data (cfg : IobufCfg) (b : Ibuf) :
    (iproto_reset_input cfg b).data = [] := by
  unfold iproto_reset_input ibuf_reset
  split <;> rfl

@[simp] theorem Conn.hasDisconnectMsg_setIbufAt (c : Conn) (i : Bool) (b : Ibuf) :
    (c.setIbufAt i b).hasDisconnectMsg = c.hasDisconnectMsg := by
  cases i <;> rfl

@[simp] theorem Conn.hasDisconnectMsg_setObufAt (c : Conn) (i : Bool) (o : Obuf) :
    (c.setObufAt i o).hasDisconnectMsg = c.hasDisconnectMsg := by
  cases i <;> rfl

@[simp] theorem Conn.inStopList_setIbufAt (c : Conn) (i : Bool) (b : Ibuf) :
    (c.setIbufAt i b).inStopList = c.inStopList := by
  cases i <;> rfl

@[simp] theorem Conn.inStopList_setObufAt (c : Conn) (i : Bool) (o : Obuf) :
    (c.setObufAt i o).inStopList = c.inStopList := by
  cases i <;> rfl

@[simp] theorem Conn.sessionLive_setIbufAt (c : Conn) (i : Bool) (b : Ibuf) :
    (c.setIbufAt i b).sessionLive = c.sessionLive := by
  cases i <;> rfl

@[simp] theorem Conn.sessionLive_setObufAt (c : Conn) (i : Bool) (o : Obuf) :
    (c.setObufAt i o).sessionLive = c.sessionLive := by
  cases i <;> rfl

@[simp] theorem Conn.obufsDestroyed_setIbufAt (c : Conn) (i : Bool) (b : Ibuf) :
    (c.setIbufAt i b).obufsDestroyed = c.obufsDestroyed := by
  cases i <;> rfl

@[simp] theorem Conn.obufsDestroyed_setObufAt (c : Conn) (i : Bool) (o : Obuf) :
    (c.setObufAt i o).obufsDestroyed = c.obufsDestroyed := by
  cases i <;> rfl

/-- The first-call block of close only changes the watchers and truncates
the current ibuf; the disconnect flag survives it. -/
@[simp] theorem iproto_close_fd_state_hasDisconnectMsg (c : Conn) :
    (iproto_close_fd_state c).hasDisconnectMsg = c.hasDisconnectMsg := by
  unfold iproto_close_fd_state
  simp

@[simp] theorem iproto_close_fd_state_inputW (c : Conn) :
    (iproto_close_fd_state c).inputW = { fd := -1, active := false } := by
  unfold iproto_close_fd_state
  simp

@[simp] theorem iproto_close_fd_state_outputW (c : Conn) :
    (iproto_close_fd_state c).outputW = { fd := -1, active := false } := by
  unfold iproto_close_fd_state
  simp

/-- The reserve contract: after reserving n bytes at least n are unused. -/
theorem ibuf_reserve_unused (b : Ibuf) (n : Nat) : n ≤ ibuf_unused (ibuf_reserve b n) := by
  unfold ibuf_reserve ibuf_unused ibuf_used Ibuf.wpos
  split_ifs with h
  · exact h
  · dsimp only
    rw [List.length_drop]
    have hm := le_max_right b.capacity (b.data.length - b.rpos + n)
    omega

/-- The keep branch is taken exactly when the current buffer has room. -/
theorem iproto_inbuf_tag_keep_iff (c : Conn) :
    iproto_inbuf_tag c = InBufTag.keep ↔
      iproto_to_read c ≤ ibuf_unused (c.ibufAt c.pIbuf) := by
  unfold iproto_inbuf_tag
  simp only [Bool.and_eq_true, beq_iff_eq, Bool.or_eq_true, bne_iff_ne]
  split_ifs with h1 h2 h3 <;> simp_all

/-- The grow branch is taken exactly when the current buffer lacks room,
everything used in it is the unparsed tail, and either nothing was consumed
from it yet or its paired obuf was never written. -/
theorem iproto_inbuf_tag_grow_iff (c : Conn) :
    iproto_inbuf_tag c = InBufTag.grow ↔
      (¬ iproto_to_read c ≤ ibuf_unused (c.ibufAt c.pIbuf) ∧
       ibuf_used (c.ibufAt c.pIbuf) = c.parseSize ∧
       (ibuf_pos (c.ibufAt c.pIbuf) = c.parseSize ∨
        obuf_size (c.obufAt c.pIbuf) = 0)) := by
  unfold iproto_inbuf_tag
  simp only [Bool.and_eq_true, beq_iff_eq, Bool.or_eq_true, bne_iff_ne]
  split_ifs with h1 h2 h3 <;> simp_all

/-- The noRoom branch is taken exactly when neither keeping nor growing is
possible and the other pair is still busy. -/
theorem iproto_inbuf_tag_noRoom_iff (c : Conn) :
    iproto_inbuf_tag c = InBufTag.noRoom ↔
      (¬ iproto_to_read c ≤ ibuf_unused (c.ibufAt c.pIbuf) ∧
       ¬(ibuf_used (c.ibufAt c.pIbuf) = c.parseSize ∧
         (ibuf_pos (c.ibufAt c.pIbuf) = c.parseSize ∨
          obuf_size (c.obufAt c.pIbuf) = 0)) ∧
       (ibuf_used (c.ibufAt (!c.pIbuf)) ≠ 0 ∨
        obuf_used (c.obufAt (!c.pIbuf)) ≠ 0)) := by
  unfold iproto_inbuf_tag
  simp only [Bool.and_eq_true, beq_iff_eq, Bool.or_eq_true, bne_iff_ne]
  split_ifs with h1 h2 h3 <;> simp_all

/-- Postconditions of the rotation branch: the current-buffer selector
flips; the new current buffer is the reserved other buffer with the
unparsed tail appended; the old buffer was truncated by parse_size (or
reset); and the new current buffer has room for to_read bytes. -/
theorem iproto_inbuf_rotate_spec (cfg : IobufCfg) (c : Conn)
    (hps : c.parseSize ≤ (c.ibufAt c.pIbuf).wpos) :
    (iproto_inbuf_rotate cfg c).pIbuf = (!c.pIbuf) ∧
    ((iproto_inbuf_rotate cfg c).ibufAt (!c.pIbuf)).data =
      (ibuf_reserve (c.ibufAt (!c.pIbuf)) (iproto_to_read c + c.parseSize)).data ++
        (c.ibufAt c.pIbuf).data.drop ((c.ibufAt c.pIbuf).wpos - c.parseSize) ∧
    (((iproto_inbuf_rotate cfg c).ibufAt c.pIbuf).wpos =
        (c.ibufAt c.pIbuf).wpos - c.parseSize ∨
     ((iproto_inbuf_rotate cfg c).ibufAt c.pIbuf).wpos = 0) ∧
    iproto_to_read c ≤ ibuf_unused ((iproto_inbuf_rotate cfg c).ibufAt (!c.pIbuf)) := by
  have hres := ibuf_reserve_unused (c.ibufAt (!c.pIbuf)) (iproto_to_read c + c.parseSize)
  unfold iproto_inbuf_rotate
  cases hp : c.pIbuf <;> rw [hp] at hps hres <;> dsimp only <;>
    split_ifs with h1 h2 <;>
    refine ⟨rfl, ?_, ?_, ?_⟩ <;>
    simp_all [Conn.setIbufAt, Conn.setObufAt, Conn.ibufAt, Conn.obufAt,
      ibuf_unused, Ibuf.wpos, bne_iff_ne] <;>
    omega

/-- The branch result of the input-buffer selection carries its tag. -/
theorem input_buffer_tag (cfg : IobufCfg) (c : Conn) :
    (iproto_connection_input_buffer cfg c).tag = iproto_inbuf_tag c := by
  unfold iproto_connection_input_buffer
  rcases h : iproto_inbuf_tag c <;> rfl

/-- Picking an input buffer never touches the read watcher. -/
theorem input_buffer_inputW (cfg : IobufCfg) (c : Conn) :
    (iproto_connection_input_buffer cfg c).conn.inputW = c.inputW := by
  unfold iproto_connection_input_buffer iproto_inbuf_rotate
  rcases h : iproto_inbuf_tag c <;> dsimp only <;> simp

/-- Reading into the picked buffer never touches the read watcher. -/
@[simp] theorem iproto_read_into_inputW (c1 : Conn) (bytes : List Nat) :
    (iproto_read_into c1 bytes).1.inputW = c1.inputW := by
  unfold iproto_read_into
  simp

/-- A leading unparsed byte that does not begin a packed unsigned integer
makes the framing loop raise ER_INVALID_MSGPACK at once, with the batch
state untouched. -/
theorem enqueue_loop_invalid (env : DecodeEnv) (st : EnqSt) (fuel : Nat)
    (b : Nat) (rest : List Nat)
    (hstop : st.stopInput = false)
    (htail : (st.conn.ibufAt st.conn.pIbuf).data.drop
        ((st.conn.ibufAt st.conn.pIbuf).wpos - st.conn.parseSize) = b :: rest)
    (hbad : mpUintLen b = none) :
    iproto_enqueue_loop env st (fuel + 1) = .error (.invalidMsgpack, st) := by
  have hps0 : st.conn.parseSize ≠ 0 := by
    intro h
    rw [h, Nat.sub_zero] at htail
    have hc := congrArg List.length htail
    rw [List.length_drop] at hc
    unfold Ibuf.wpos at hc
    simp at hc
  unfold iproto_enqueue_loop
  dsimp only
  rw [htail]
  simp [hstop, hps0, hbad]

/-- Batch-level version: a malformed leading length byte makes
iproto_enqueue_batch raise ER_INVALID_MSGPACK with the entry state. -/
theorem enqueue_batch_invalid (env : DecodeEnv) (c : Conn) (mc : Nat)
    (b : Nat) (rest : List Nat)
    (htail : (c.ibufAt c.pIbuf).data.drop
        ((c.ibufAt c.pIbuf).wpos - c.parseSize) = b :: rest)
    (hbad : mpUintLen b = none) :
    iproto_enqueue_batch env c mc =
      .error (IErr.invalidMsgpack,
        { conn := c, msgCount := mc, pushed := [], replies := [],
          fedOutputEvents := 0, nRequests := 0, stopInput := false,
          fedInputEvent := false }) := by
  unfold iproto_enqueue_batch
  dsimp only
  rw [enqueue_loop_invalid env
    { conn := c, msgCount := mc, pushed := [], replies := [], fedOutputEvents := 0,
      nRequests := 0, stopInput := false, fedInputEvent := false }
    c.parseSize b rest rfl htail hbad]

/-- Touching an output buffer leaves idleness unchanged. -/
@[simp] theorem is_idle_setObufAt (c : Conn) (i : Bool) (o : Obuf) :
    iproto_connection_is_idle (c.setObufAt i o) = iproto_connection_is_idle c := by
  cases i <;> rfl

/-- Closing a fresh idle connection (fd open, disconnect message held, no
unparsed tail) pushes the disconnect message. -/
theorem close_of_idle_fresh (c : Conn)
    (hidle : iproto_connection_is_idle c = true)
    (hfd : evio_has_fd c.inputW = true)
    (hd : c.hasDisconnectMsg = true)
    (hps : c.parseSize = 0) :
    iproto_connection_close c =
      some ({ iproto_close_fd_state c with
              hasDisconnectMsg := false, inStopList := false }, true) := by
  have hidle2 : iproto_connection_is_idle (iproto_close_fd_state c) = true := by
    unfold iproto_close_fd_state iproto_connection_is_idle at *
    cases hp : c.pIbuf <;>
      simp_all [Conn.setIbufAt, Conn.ibufAt, ibuf_used, Ibuf.wpos, hps]
  unfold iproto_connection_close
  simp [hfd, hidle2, hd]

/-- The greeting hop on a connection flagged for closing: best-effort
socket write of the whole obuf, then close, then free the message. -/
theorem net_send_greeting_close (c : Conn) (we : Nat)
    (hidle : iproto_connection_is_idle c = true)
    (hfd : evio_has_fd c.inputW = true)
    (hd : c.hasDisconnectMsg = true)
    (hps : c.parseSize = 0) :
    net_send_greeting c ⟨true, we⟩ =
      some ({ iproto_close_fd_state c with
              hasDisconnectMsg := false, inStopList := false },
            [GEvent.socketWrite c.outputW.fd (obuf_size (c.obufAt c.pIbuf)),
             GEvent.closedConn, GEvent.freedMsg]) := by
  unfold net_send_greeting
  simp [hidle, close_of_idle_fresh c hidle hfd hd hps]

/- Helper lemmas about the flusher selection. -/

/-- When the older obuf has no pending bytes and either its ibuf still has
in-flight requests or the current obuf is empty, the flusher reports
nothing to send and leaves the connection untouched. -/
theorem iproto_flush_nothing (cfg : IobufCfg) (c : Conn) (w : Nat)
    (h0 : obuf_used (c.obufAt (!c.pIbuf)) = 0)
    (h1 : 0 < ibuf_used (c.ibufAt (!c.pIbuf)) ∨ obuf_used (c.obufAt c.pIbuf) = 0) :
    iproto_flush cfg c w = ⟨1, c, none, 0⟩ := by
  unfold iproto_flush iproto_flush_sel iproto_connection_next_input
  rcases h1 with h1 | h1 <;> simp [h0, h1]

/-- When the older obuf has pending bytes, the flusher drains it (or sends
nothing at all on a busy socket) and never touches the current obuf. -/
theorem iproto_flush_prev_sel (cfg : IobufCfg) (c : Conn) (w : Nat)
    (h : obuf_used (c.obufAt (!c.pIbuf)) ≠ 0) :
    ((iproto_flush cfg c w).sentFrom = some (!c.pIbuf) ∨
     (iproto_flush cfg c w).sentFrom = none) ∧
    (iproto_flush cfg c w).conn.obufAt c.pIbuf = c.obufAt c.pIbuf := by
  unfold iproto_flush iproto_flush_sel iproto_connection_next_input
  have hb : (obuf_used (c.obufAt (!c.pIbuf)) == 0) = false := beq_eq_false_iff_ne.mpr h
  simp only [hb, Bool.false_eq_true, if_false]
  have hne : c.pIbuf ≠ !c.pIbuf := by cases hp : c.pIbuf <;> simp
  split
  · split
    · split
      · simp [Conn.obufAt_setObufAt, hne]
      · simp [Conn.obufAt_setObufAt, hne]
    · simp [Conn.obufAt_setObufAt, hne]
  · simp

/- Theorems checking the claims. -/

/-- C1: For every connection and every run of the output flusher, bytes are
never drained from the current obuf while the older pair is unfinished: if
the obuf paired with the ibuf not currently receiving input has pending
committed bytes, those bytes are drained first (nothing is sent from the
current obuf and it is untouched); else if that previous ibuf is non-empty
or the current obuf is empty, no bytes are sent and the write watcher is
stopped; only otherwise is the current obuf drained. -/
theorem flusher_prefers_older_pair (cfg : IobufCfg) (c : Conn) (oracle : List Nat) :
    (obuf_used (c.obufAt (!c.pIbuf)) ≠ 0 →
       ((iproto_flush cfg c (oracle.headD 0)).sentFrom = some (!c.pIbuf) ∨
        (iproto_flush cfg c (oracle.headD 0)).sentFrom = none) ∧
       (iproto_flush cfg c (oracle.headD 0)).conn.obufAt c.pIbuf = c.obufAt c.pIbuf) ∧
    (obuf_used (c.obufAt (!c.pIbuf)) = 0 →
      (0 < ibuf_used (c.ibufAt (!c.pIbuf)) ∨ obuf_used (c.obufAt c.pIbuf) = 0) →
       (iproto_flush cfg c (oracle.headD 0)).rc = 1 ∧
       (iproto_flush cfg c (oracle.headD 0)).sent = 0 ∧
       (iproto_flush cfg c (oracle.headD 0)).conn = c ∧
       (iproto_connection_on_output cfg c oracle).conn.outputW.active = false ∧
       (iproto_connection_on_output cfg c oracle).drains = []) ∧
    (obuf_used (c.obufAt (!c.pIbuf)) = 0 →
      ibuf_used (c.ibufAt (!c.pIbuf)) = 0 → obuf_used (c.obufAt c.pIbuf) ≠ 0 →
       ((iproto_flush cfg c (oracle.headD 0)).sentFrom = some c.pIbuf ∨
        (iproto_flush cfg c (oracle.headD 0)).sentFrom = none)) := by
  refine ⟨fun h => iproto_flush_prev_sel cfg c _ h, fun h0 h1 => ?_, fun h0 h1 h2 => ?_⟩
  · have hf : ∀ w, iproto_flush cfg c w = ⟨1, c, none, 0⟩ :=
      fun w => iproto_flush_nothing cfg c w h0 h1
    have hfuel : oracle.length + 2 = (oracle.length + 1) + 1 := rfl
    refine ⟨by rw [hf], by rw [hf], by rw [hf], ?_, ?_⟩
    · unfold iproto_connection_on_output
      rw [hfuel]
      simp [iproto_on_output_loop, hf]
    · unfold iproto_connection_on_output
      rw [hfuel]
      simp [iproto_on_output_loop, hf]
  · unfold iproto_flush iproto_flush_sel iproto_connection_next_input
    have hb : (obuf_used (c.obufAt c.pIbuf) == 0) = false := beq_eq_false_iff_ne.mpr h2
    simp [h0, h1, hb]
    split_ifs <;> simp

/-- Witness for C1: the three branches of the flusher claim evaluated on
concrete connections (older pair pending; nothing to send; current pair
pending). -/
theorem flusher_prefers_older_pair_witness :
    ((iproto_flush demoCfg demoConnPrevPending 100).sentFrom = some (!demoConnPrevPending.pIbuf) ∨
     (iproto_flush demoCfg demoConnPrevPending 100).sentFrom = none) ∧
    (iproto_connection_on_output demoCfg demoConn [100]).conn.outputW.active = false ∧
    ((iproto_flush demoCfg demoConnCurPending 100).sentFrom = some demoConnCurPending.pIbuf ∨
     (iproto_flush demoCfg demoConnCurPending 100).sentFrom = none) := by
  refine ⟨?_, ?_, ?_⟩
  · exact ((flusher_prefers_older_pair demoCfg demoConnPrevPending [100]).1 (by decide)).1
  · exact ((flusher_prefers_older_pair demoCfg demoConn [100]).2.1 (by decide)
      (Or.inr (by decide))).2.2.2.1
  · exact (flusher_prefers_older_pair demoCfg demoConnCurPending [100]).2.2 (by decide)
      (by decide) (by decide)

/-- C5: Whenever both buffers of a side become empty their positions are
reset to offset 0: a full socket drain of an obuf whose paired ibuf holds
no used bytes resets both buffers of the pair, and a buffer rotation that
moves the last unparsed bytes off the old buffer (the whole used region is
the unparsed tail) while the paired obuf has no pending bytes resets the
old pair. -/
theorem empty_pair_is_reset (cfg : IobufCfg) :
    (∀ (c : Conn) (w : Nat) (k : Bool),
      (iproto_flush cfg c w).rc = 0 →
      (iproto_flush cfg c w).sentFrom = some k →
      ibuf_used (c.ibufAt k) = 0 →
      (iproto_flush cfg c w).conn.obufAt k = obuf_reset ∧
      ((iproto_flush cfg c w).conn.ibufAt k).rpos = 0 ∧
      ((iproto_flush cfg c w).conn.ibufAt k).wpos = 0) ∧
    (∀ c : Conn,
      (iproto_connection_input_buffer cfg c).tag = InBufTag.rotate →
      c.parseSize ≠ 0 →
      ibuf_used (c.ibufAt c.pIbuf) = c.parseSize →
      obuf_used (c.obufAt c.pIbuf) = 0 →
      (iproto_connection_input_buffer cfg c).conn.obufAt c.pIbuf = obuf_reset ∧
      ((iproto_connection_input_buffer cfg c).conn.ibufAt c.pIbuf).rpos = 0 ∧
      ((iproto_connection_input_buffer cfg c).conn.ibufAt c.pIbuf).wpos = 0) := by
  constructor
  · intro c w k hrc hsf hib
    rcases hsel : iproto_flush_sel c with _ | k0
    · unfold iproto_flush at hrc
      rw [hsel] at hrc
      simp at hrc
    · unfold iproto_flush at hrc hsf ⊢
      rw [hsel] at hrc hsf ⊢
      dsimp only at hrc hsf ⊢
      split_ifs at hrc hsf ⊢ with h1 h2 h3
      · have hk : k0 = k := by simpa using hsf
        subst hk
        simp [Conn.ibufAt_setIbufAt, Conn.obufAt_setObufAt]
      · have hk : k0 = k := by simpa using hsf
        subst hk
        simp [hib] at h3
      all_goals simp at hrc
  · intro c htag hps hused hob
    have htag1 : iproto_inbuf_tag c = InBufTag.rotate := by
      unfold iproto_connection_input_buffer at htag
      rcases h : iproto_inbuf_tag c <;> rw [h] at htag <;> simp_all
    unfold iproto_connection_input_buffer
    rw [htag1]
    dsimp only
    unfold iproto_inbuf_rotate
    have hcond : (ibuf_used
          { rpos := (c.ibufAt c.pIbuf).rpos,
            data := List.take ((c.ibufAt c.pIbuf).wpos - c.parseSize) (c.ibufAt c.pIbuf).data,
            capacity := (c.ibufAt c.pIbuf).capacity } == 0 &&
        obuf_used (c.obufAt c.pIbuf) == 0) = true := by
      simp only [Bool.and_eq_true, beq_iff_eq]
      refine ⟨?_, hob⟩
      unfold ibuf_used Ibuf.wpos at hused ⊢
      simp only [List.length_take]
      omega
    have hps1 : (c.parseSize != 0) = true := by simpa using hps
    simp only [hps1, hcond]
    cases hp : c.pIbuf <;>
      simp [hp, Conn.setIbufAt, Conn.setObufAt, Conn.obufAt, Conn.ibufAt]

/-- Witness for C5: a full drain of the current pair of a concrete idle
connection resets it, and the concrete rotation fixture resets its old
pair. -/
theorem empty_pair_is_reset_witness :
    ((iproto_flush demoCfg demoConnCurPending 100).conn.obufAt false = obuf_reset ∧
     ((iproto_flush demoCfg demoConnCurPending 100).conn.ibufAt false).rpos = 0 ∧
     ((iproto_flush demoCfg demoConnCurPending 100).conn.ibufAt false).wpos = 0) ∧
    ((iproto_connection_input_buffer demoCfg demoConnRotate).conn.obufAt
        demoConnRotate.pIbuf = obuf_reset ∧
     ((iproto_connection_input_buffer demoCfg demoConnRotate).conn.ibufAt
        demoConnRotate.pIbuf).rpos = 0 ∧
     ((iproto_connection_input_buffer demoCfg demoConnRotate).conn.ibufAt
        demoConnRotate.pIbuf).wpos = 0) :=
  ⟨(empty_pair_is_reset demoCfg).1 demoConnCurPending 100 false (by decide) (by decide)
     (by decide),
   (empty_pair_is_reset demoCfg).2 demoConnRotate (by decide) (by decide) (by decide)
     (by decide)⟩

/-- C6: every free of a message object runs the resume check on the
decremented pool; when stopped_connections is non-empty and the throttle no
longer fires, exactly the head of the list receives the synthesized read
event — never any other element — and stopping appends to the tail, so
connections are resumed in the FIFO order in which they were stopped. -/
theorem msg_free_resumes_fifo (n : Net) (cid hd : Nat) (rest : List Nat) :
    ((iproto_msg_delete n).1.msgCount = n.msgCount - 1 ∧
     (iproto_msg_delete n).1.stopped = n.stopped ∧
     (iproto_msg_delete n).2 = iproto_resume (iproto_msg_delete n).1) ∧
    (n.stopped = hd :: rest →
      iproto_must_stop_input (iproto_msg_delete n).1 = false →
      (iproto_msg_delete n).2 = some hd) ∧
    (∀ x : Nat, (iproto_msg_delete n).2 = some x → n.stopped.head? = some x) ∧
    (iproto_connection_stop n cid).stopped = n.stopped ++ [cid] := by
  refine ⟨⟨rfl, rfl, rfl⟩, ?_, ?_, rfl⟩
  · intro hs hm
    dsimp only [iproto_msg_delete] at hm ⊢
    rw [hs] at hm
    unfold iproto_resume
    rw [hs]
    simp [hm]
  · intro x hx
    unfold iproto_msg_delete iproto_resume at hx
    dsimp only at hx
    split_ifs at hx
    exact hx

/-- Witness for C6: freeing a message at a concrete over-cap state with two
stopped connections resumes the one stopped first. -/
theorem msg_free_resumes_fifo_witness :
    (iproto_msg_delete demoNetStopped).2 = some 5 ∧
    (iproto_connection_stop demoNetStopped 9).stopped = [5, 7, 9] :=
  ⟨(msg_free_resumes_fifo demoNetStopped 9 5 [7]).2.1 rfl (by decide),
   (msg_free_resumes_fifo demoNetStopped 9 5 [7]).2.2.2⟩

/-- C2 (amended): at the top of every read event, including one fed by
iproto_resume to a connection waking from the stopped list, which first
removes itself from stopped_connections and passes the resume on to the
next head: if the allocated message count exceeds the active connections
plus IPROTO_MSG_MAX, the read watcher is stopped and the connection is
appended to the tail of stopped_connections before any byte is read, a
waking connection thereby re-joining at the tail; this pauses input for
later events but does not bound the count continuously, since a single
earlier event may frame many requests (see the counterexample). -/
theorem throttle_stops_input_at_top (cfg : IobufCfg) (env : DecodeEnv) (cid : Nat)
    (c : Conn) (net : Net) (recv : Option (List Nat))
    (hm : iproto_must_stop_input net = true) :
    iproto_connection_on_input cfg env cid c net recv =
      some { conn := { c with inputW := { c.inputW with active := false },
                              inStopList := true },
             net := { net with stopped :=
                        (if c.inStopList then net.stopped.erase cid
                         else net.stopped) ++ [cid] },
             resumeFed :=
               if c.inStopList then
                 iproto_resume { net with stopped := net.stopped.erase cid }
               else none,
             stoppedSelf := true, pausedNoRoom := false, readBytes := 0,
             pushed := [], replies := [], blockingErrWrite := none,
             closedNow := false, pushedDisconnect := false } := by
  unfold iproto_connection_on_input
  dsimp only
  cases hw : c.inStopList
  · simp [hm, iproto_connection_stop]
  · have hm0 : iproto_must_stop_input { net with stopped := net.stopped.erase cid } =
        true := hm
    simp [hm0, iproto_connection_stop]

/-- Witness for C2: a concrete over-cap state stops the reader and joins
the stopped list without reading, both at a fresh read event and at a
resume-fed event on a waking connection, which re-joins at the tail of the
stopped list behind the other stopped connection. -/
theorem throttle_stops_input_at_top_witness :
    (iproto_connection_on_input demoCfg demoEnv 7 demoConn demoNet770 (some [4, 1, 2, 3, 4]) =
      some { conn := { demoConn with inputW := { demoConn.inputW with active := false },
                                     inStopList := true },
             net := { demoNet770 with stopped := [7] }, resumeFed := none,
             stoppedSelf := true, pausedNoRoom := false, readBytes := 0,
             pushed := [], replies := [], blockingErrWrite := none,
             closedNow := false, pushedDisconnect := false }) ∧
    (iproto_connection_on_input demoCfg demoEnv 5 { demoConn with inStopList := true }
        demoNetStopped (some [4, 1, 2, 3, 4]) =
      some { conn := { demoConn with inputW := { demoConn.inputW with active := false },
                                     inStopList := true },
             net := { demoNetStopped with stopped := [7, 5] }, resumeFed := none,
             stoppedSelf := true, pausedNoRoom := false, readBytes := 0,
             pushed := [], replies := [], blockingErrWrite := none,
             closedNow := false, pushedDisconnect := false }) :=
  ⟨(throttle_stops_input_at_top demoCfg demoEnv 7 demoConn demoNet770
      (some [4, 1, 2, 3, 4]) (by decide)).trans (by rfl),
   (throttle_stops_input_at_top demoCfg demoEnv 5 { demoConn with inStopList := true }
      demoNetStopped (some [4, 1, 2, 3, 4]) (by decide)).trans (by rfl)⟩

/-- C3: Before each read the input buffer is picked by the decision tree
of iproto_connection_input_buffer. The need is 3 bytes unless the unparsed
tail already holds a complete length prefix, in which case it is the
decoded length; the current buffer is kept when it has need unused bytes;
it is grown in place exactly when its used region equals parse_size and
(its write offset equals parse_size or the paired obuf is empty);
otherwise, when the other ibuf is non-empty or the other pair's obuf has
pending bytes, no buffer is returned and the read watcher is stopped;
otherwise the other buffer is reserved to need plus parse_size bytes, the
unparsed tail is copied into it, the tail is truncated off the old buffer,
and p_ibuf switches to the other buffer. -/
theorem input_buffer_selection (cfg : IobufCfg) (env : DecodeEnv) (cid : Nat)
    (c : Conn) (net : Net) (recv : Option (List Nat))
    (hps : c.parseSize ≤ (c.ibufAt c.pIbuf).wpos) :
    ((c.parseSize = 0 → iproto_to_read c = 3) ∧
     (∀ b rest, (c.ibufAt c.pIbuf).data.drop ((c.ibufAt c.pIbuf).wpos - c.parseSize) =
          b :: rest →
        iproto_to_read c =
          (match mpUintLen b with
           | some l => if l ≤ c.parseSize then mpDecodeUint (b :: rest) else 3
           | none => 3))) ∧
    ((iproto_inbuf_tag c = InBufTag.keep ↔
        iproto_to_read c ≤ ibuf_unused (c.ibufAt c.pIbuf)) ∧
     (iproto_inbuf_tag c = InBufTag.keep →
        iproto_connection_input_buffer cfg c = ⟨InBufTag.keep, c⟩)) ∧
    ((iproto_inbuf_tag c = InBufTag.grow ↔
        (¬ iproto_to_read c ≤ ibuf_unused (c.ibufAt c.pIbuf) ∧
         ibuf_used (c.ibufAt c.pIbuf) = c.parseSize ∧
         (ibuf_pos (c.ibufAt c.pIbuf) = c.parseSize ∨
          obuf_size (c.obufAt c.pIbuf) = 0))) ∧
     (iproto_inbuf_tag c = InBufTag.grow →
        (iproto_connection_input_buffer cfg c).conn.pIbuf = c.pIbuf ∧
        iproto_to_read c ≤
          ibuf_unused ((iproto_connection_input_buffer cfg c).conn.ibufAt c.pIbuf))) ∧
    ((iproto_inbuf_tag c = InBufTag.noRoom ↔
        (¬ iproto_to_read c ≤ ibuf_unused (c.ibufAt c.pIbuf) ∧
         ¬(ibuf_used (c.ibufAt c.pIbuf) = c.parseSize ∧
           (ibuf_pos (c.ibufAt c.pIbuf) = c.parseSize ∨
            obuf_size (c.obufAt c.pIbuf) = 0)) ∧
         (ibuf_used (c.ibufAt (!c.pIbuf)) ≠ 0 ∨
          obuf_used (c.obufAt (!c.pIbuf)) ≠ 0))) ∧
     (iproto_inbuf_tag c = InBufTag.noRoom →
        iproto_connection_input_buffer cfg c = ⟨InBufTag.noRoom, c⟩ ∧
        (c.inStopList = false → iproto_must_stop_input net = false →
          iproto_connection_on_input cfg env cid c net recv =
            some { conn := { c with inputW := { c.inputW with active := false } },
                   net := net, resumeFed := none, stoppedSelf := false,
                   pausedNoRoom := true, readBytes := 0, pushed := [], replies := [],
                   blockingErrWrite := none, closedNow := false,
                   pushedDisconnect := false }))) ∧
    (iproto_inbuf_tag c = InBufTag.rotate →
       (iproto_connection_input_buffer cfg c).conn.pIbuf = (!c.pIbuf) ∧
       ((iproto_connection_input_buffer cfg c).conn.ibufAt (!c.pIbuf)).data =
         (ibuf_reserve (c.ibufAt (!c.pIbuf)) (iproto_to_read c + c.parseSize)).data ++
           (c.ibufAt c.pIbuf).data.drop ((c.ibufAt c.pIbuf).wpos - c.parseSize) ∧
       (((iproto_connection_input_buffer cfg c).conn.ibufAt c.pIbuf).wpos =
           (c.ibufAt c.pIbuf).wpos - c.parseSize ∨
        ((iproto_connection_input_buffer cfg c).conn.ibufAt c.pIbuf).wpos = 0) ∧
       iproto_to_read c ≤
         ibuf_unused ((iproto_connection_input_buffer cfg c).conn.ibufAt (!c.pIbuf))) := by
  refine ⟨⟨?_, ?_⟩, ⟨iproto_inbuf_tag_keep_iff c, ?_⟩,
          ⟨iproto_inbuf_tag_grow_iff c, ?_⟩, ⟨iproto_inbuf_tag_noRoom_iff c, ?_⟩, ?_⟩
  · intro h0
    unfold iproto_to_read
    simp [h0]
  · intro b rest ht
    have hlen : (b :: rest).length = c.parseSize := by
      have hc := congrArg List.length ht
      rw [List.length_drop] at hc
      unfold Ibuf.wpos at hps hc
      omega
    have hps0 : c.parseSize ≠ 0 := by
      intro h
      rw [h] at hlen
      simp at hlen
    have hps0b : (c.parseSize == 0) = false := beq_eq_false_iff_ne.mpr hps0
    unfold iproto_to_read
    dsimp only
    rw [hps0b, ht, hlen]
    simp
  · intro h
    unfold iproto_connection_input_buffer
    rw [h]
  · intro h
    unfold iproto_connection_input_buffer
    rw [h]
    dsimp only
    refine ⟨by simp, ?_⟩
    have := ibuf_reserve_unused (c.ibufAt c.pIbuf) (iproto_to_read c)
    simpa [Conn.ibufAt_setIbufAt] using this
  · intro h
    have hib : iproto_connection_input_buffer cfg c = ⟨InBufTag.noRoom, c⟩ := by
      unfold iproto_connection_input_buffer
      rw [h]
    refine ⟨hib, ?_⟩
    intro hw hm
    unfold iproto_connection_on_input
    simp [hw, hm, hib]
  · intro h
    have hib : iproto_connection_input_buffer cfg c = ⟨InBufTag.rotate, iproto_inbuf_rotate cfg c⟩ := by
      unfold iproto_connection_input_buffer
      rw [h]
    rw [hib]
    exact iproto_inbuf_rotate_spec cfg c hps

/-- Witness for C3 at concrete connections: the fresh connection keeps its
buffer, the rotation fixture rotates with the tail moved over, and a
connection whose other pair is busy pauses input. -/
theorem input_buffer_selection_witness :
    iproto_connection_input_buffer demoCfg demoConn = ⟨InBufTag.keep, demoConn⟩ ∧
    (iproto_connection_input_buffer demoCfg demoConnRotate).conn.pIbuf =
      (!demoConnRotate.pIbuf) ∧
    iproto_to_read demoConn = 3 := by
  refine ⟨?_, ?_, ?_⟩
  · exact (input_buffer_selection demoCfg demoEnv 7 demoConn demoNet769 none
      (by decide)).2.1.2 (by decide)
  · exact ((input_buffer_selection demoCfg demoEnv 7 demoConnRotate demoNet769 none
      (by decide)).2.2.2.2 (by decide)).1
  · exact (input_buffer_selection demoCfg demoEnv 7 demoConn demoNet769 none
      (by decide)).1.1 rfl

/-- C4 (amended): when the first unparsed byte of the current input buffer
does not encode a packed unsigned integer, framing raises
ER_INVALID_MSGPACK out of the batch with nothing framed, and the read
handler answers with a best-effort blocking error write carrying sync 0 to
the socket of the connection and then closes the connection (the original
claim said the connection is not closed; the code closes it, see the
counterexample). -/
theorem malformed_length_write_and_close (cfg : IobufCfg) (env : DecodeEnv)
    (cid : Nat) (c : Conn) (net : Net) (bytes : List Nat) (e : IErr) (st : EnqSt) :
    (∀ (c2 : Conn) (mc b : Nat) (rest : List Nat),
       (c2.ibufAt c2.pIbuf).data.drop ((c2.ibufAt c2.pIbuf).wpos - c2.parseSize) =
         b :: rest →
       mpUintLen b = none →
       iproto_enqueue_batch env c2 mc =
         .error (IErr.invalidMsgpack,
           { conn := c2, msgCount := mc, pushed := [], replies := [],
             fedOutputEvents := 0, nRequests := 0, stopInput := false,
             fedInputEvent := false })) ∧
    (c.inStopList = false →
     iproto_must_stop_input net = false →
     iproto_inbuf_tag c ≠ InBufTag.noRoom →
     bytes.isEmpty = false →
     iproto_enqueue_batch env
         (iproto_read_into (iproto_connection_input_buffer cfg c).conn bytes).1
         net.msgCount = .error (e, st) →
     iproto_connection_on_input cfg env cid c net (some bytes) =
       (iproto_connection_close st.conn).map fun p =>
         { conn := p.1, net := { net with msgCount := st.msgCount },
           resumeFed := none, stoppedSelf := false, pausedNoRoom := false,
           readBytes := (iproto_read_into
             (iproto_connection_input_buffer cfg c).conn bytes).2,
           pushed := st.pushed, replies := st.replies,
           blockingErrWrite := some (c.inputW.fd, e, 0),
           closedNow := true, pushedDisconnect := p.2 }) := by
  constructor
  · intro c2 mc b rest ht hb
    exact enqueue_batch_invalid env c2 mc b rest ht hb
  · intro hw hm htag hnb herr
    have htagb : ((iproto_connection_input_buffer cfg c).tag == InBufTag.noRoom) = false := by
      rw [input_buffer_tag]
      exact beq_eq_false_iff_ne.mpr htag
    have hfd : (iproto_read_into (iproto_connection_input_buffer cfg c).conn
        bytes).1.inputW.fd = c.inputW.fd := by
      rw [iproto_read_into_inputW, input_buffer_inputW]
    unfold iproto_connection_on_input
    simp [hw, hm, htagb, hnb, herr, hfd, input_buffer_inputW]

/-- Counterexample for C4 as stated: feeding the reserved byte 0xc1 as a
packet length to a fresh connection yields the blocking error write with
sync 0 on fd 3 and leaves the connection closed (both watcher fds -1), so
a subsequent request cannot succeed; the claim asserts the connection is
not closed. -/
theorem malformed_length_counterexample :
    ((iproto_connection_on_input demoCfg demoEnv 7 demoConn demoNet769
        (some [0xc1, 0, 0])).map fun r =>
      (r.blockingErrWrite, r.closedNow, r.conn.inputW.fd, r.conn.outputW.fd)) =
      some (some (3, IErr.invalidMsgpack, 0), true, -1, -1) := by decide

/-- Witness for C4: the batch on a concrete connection whose unparsed tail
starts with 0xc1 raises ER_INVALID_MSGPACK with nothing framed. -/
theorem malformed_length_write_and_close_witness :
    iproto_enqueue_batch demoEnv
        { demoConn with ibuf0 := { rpos := 0, data := [0xc1, 0, 0], capacity := 16384 },
                        parseSize := 3 } 1 =
      .error (IErr.invalidMsgpack,
        { conn := { demoConn with
                    ibuf0 := { rpos := 0, data := [0xc1, 0, 0], capacity := 16384 },
                    parseSize := 3 },
          msgCount := 1, pushed := [], replies := [], fedOutputEvents := 0,
          nRequests := 0, stopInput := false, fedInputEvent := false }) :=
  (malformed_length_write_and_close demoCfg demoEnv 7 demoConn demoNet769 []
      IErr.invalidMsgpack
      { conn := demoConn, msgCount := 0, pushed := [], replies := [],
        fedOutputEvents := 0, nRequests := 0, stopInput := false,
        fedInputEvent := false }).1
    { demoConn with ibuf0 := { rpos := 0, data := [0xc1, 0, 0], capacity := 16384 },
                    parseSize := 3 } 1 0xc1 [0, 0] rfl rfl

/-- C7: a fully framed request whose decode fails after the header was
read (for example an unrecognized opcode raising ER_UNKNOWN_REQUEST_TYPE)
leaves the connection open and the framing loop running: an error reply
carrying the sync of that request is appended and committed to the paired
obuf, rpos advances past the frame immediately, a write event is fed when
the write watcher is inactive, parse_size drops by the frame length exactly
as for a successfully decoded request, the pool count is unchanged, and the
loop proceeds to the next request of the batch. -/
theorem decode_failure_keeps_framing (env : DecodeEnv) (st : EnqSt) (fuel : Nat)
    (b : Nat) (rest : List Nat) (lenlen : Nat) (e : IErr) (h : Header)
    (hstop : st.stopInput = false)
    (htail : (st.conn.ibufAt st.conn.pIbuf).data.drop
        ((st.conn.ibufAt st.conn.pIbuf).wpos - st.conn.parseSize) = b :: rest)
    (hb : mpUintLen b = some lenlen)
    (hlt : lenlen < st.conn.parseSize)
    (hreq : lenlen + mpDecodeUint (b :: rest) ≤ st.conn.parseSize)
    (hdec : iproto_decode_msg
        (env.hdrO (((b :: rest).drop lenlen).take (mpDecodeUint (b :: rest))))
        env.bodyO = .error (e, some h)) :
    iproto_enqueue_loop env st (fuel + 1) =
      iproto_enqueue_loop env
        { conn :=
            { ((st.conn.setIbufAt st.conn.pIbuf
                  { rpos := (st.conn.ibufAt st.conn.pIbuf).rpos +
                      (lenlen + mpDecodeUint (b :: rest)),
                    data := (st.conn.ibufAt st.conn.pIbuf).data,
                    capacity := (st.conn.ibufAt st.conn.pIbuf).capacity }).setObufAt
                st.conn.pIbuf
                  { size := (st.conn.obufAt st.conn.pIbuf).size + env.errSize,
                    wpos := (st.conn.obufAt st.conn.pIbuf).wpos,
                    wend := (st.conn.obufAt st.conn.pIbuf).size + env.errSize }) with
              parseSize := st.conn.parseSize - (lenlen + mpDecodeUint (b :: rest)) },
          msgCount := st.msgCount,
          pushed := st.pushed,
          replies := st.replies ++ [(h.sync, e)],
          fedOutputEvents := st.fedOutputEvents +
            (if st.conn.outputW.active then 0 else 1),
          nRequests := st.nRequests,
          stopInput := st.stopInput,
          fedInputEvent := st.fedInputEvent } fuel := by
  have hps0 : st.conn.parseSize ≠ 0 := by omega
  have hc1 : ¬((st.stopInput || st.conn.parseSize == 0) = true) := by
    simp [hstop, hps0]
  have hc2 : ¬ st.conn.parseSize ≤ lenlen := by omega
  have hc3 : ¬ st.conn.parseSize < lenlen + mpDecodeUint (b :: rest) := by omega
  conv_lhs => rw [iproto_enqueue_loop]
  dsimp only
  rw [if_neg hc1, htail]
  dsimp only
  rw [hb]
  dsimp only
  rw [if_neg hc2, if_neg hc3, hdec]
  dsimp only [obuf_create_svp]

/-- Witness for C7: the concrete unknown-opcode frame steps the framing
loop to the concrete consumed state. -/
theorem decode_failure_keeps_framing_witness :
    iproto_enqueue_loop demoEnvUnknown demoEnqSt 6 =
      iproto_enqueue_loop demoEnvUnknown demoEnqStStepped 5 := by
  have hstep := decode_failure_keeps_framing demoEnvUnknown demoEnqSt 5 4 [1, 2, 3, 4] 1
    (IErr.unknownRequestType 99) { htype := 99, sync := 0x55, schemaVersion := 0 }
    rfl rfl rfl (by decide) (by decide) rfl
  exact hstep

/-- C8 (amended): connection close is idempotent on the watcher, fd and
buffer state. The first call, made while the watcher still holds the fd,
stops both watchers, sets both watcher fds to -1 and subtracts parse_size
from wpos, and enqueues the pre-allocated disconnect message exactly when
the connection is then idle and the message is still held (consuming it);
a later call while the connection is not idle leaves that state unchanged
and enqueues nothing; a later call that first observes idleness enqueues
the single disconnect message; but one more call on an already-idle closed
connection fails the assertion that the disconnect message is still held
instead of being a no-op (see the counterexample). -/
theorem close_idempotent (c : Conn) (hfd : evio_has_fd c.inputW = true) :
    (iproto_connection_close c =
       (if iproto_connection_is_idle (iproto_close_fd_state c) = true then
          (if c.hasDisconnectMsg = true then
             some ({ iproto_close_fd_state c with
                     hasDisconnectMsg := false,
                     inStopList := false }, true)
           else none)
        else some ({ iproto_close_fd_state c with inStopList := false }, false))) ∧
    ((iproto_close_fd_state c).inputW = { fd := -1, active := false } ∧
     (iproto_close_fd_state c).outputW = { fd := -1, active := false } ∧
     ((iproto_close_fd_state c).ibufAt c.pIbuf).wpos =
       (c.ibufAt c.pIbuf).wpos - c.parseSize) ∧
    (∀ c1 : Conn, evio_has_fd c1.inputW = false →
       iproto_connection_is_idle c1 = false →
       iproto_connection_close c1 = some ({ c1 with inStopList := false }, false)) ∧
    (∀ c1 : Conn, evio_has_fd c1.inputW = false →
       iproto_connection_is_idle c1 = true → c1.hasDisconnectMsg = true →
       iproto_connection_close c1 =
         some ({ c1 with hasDisconnectMsg := false, inStopList := false }, true)) ∧
    (∀ c1 : Conn, evio_has_fd c1.inputW = false →
       iproto_connection_is_idle c1 = true → c1.hasDisconnectMsg = false →
       iproto_connection_close c1 = none) := by
  refine ⟨?_, ⟨?_, ?_, ?_⟩, ?_, ?_, ?_⟩
  · unfold iproto_connection_close
    simp only [hfd, if_true, iproto_close_fd_state_hasDisconnectMsg]
  · unfold iproto_close_fd_state
    simp
  · unfold iproto_close_fd_state
    simp
  · unfold iproto_close_fd_state
    cases hp : c.pIbuf <;>
      simp [hp, Conn.setIbufAt, Conn.ibufAt, Ibuf.wpos]
  · intro c1 h1 h2
    unfold iproto_connection_close
    simp [h1, h2]
  · intro c1 h1 h2 h3
    unfold iproto_connection_close
    simp [h1, h2, h3]
  · intro c1 h1 h2 h3
    unfold iproto_connection_close
    simp [h1, h2, h3]

/-- Counterexample for C8 as stated: on a concrete idle connection the
first close succeeds and enqueues the disconnect message, but the second
call does not leave the state unchanged — it fails the assertion that the
disconnect message is still held (the model returns none). -/
theorem close_idempotent_counterexample :
    (iproto_connection_close demoConn).bind
      (fun p => iproto_connection_close p.1) = none := by decide

/-- Witness for C8: the first close of the concrete fresh connection,
which is idle, closes the fd and pushes the disconnect message. -/
theorem close_idempotent_witness :
    iproto_connection_close demoConn =
      (if iproto_connection_is_idle (iproto_close_fd_state demoConn) = true then
         (if demoConn.hasDisconnectMsg = true then
            some ({ iproto_close_fd_state demoConn with
                    hasDisconnectMsg := false,
                    inStopList := false }, true)
          else none)
       else some ({ iproto_close_fd_state demoConn with inStopList := false }, false)) :=
  (close_idempotent demoConn rfl).1

/-- Counterexample for C2 as stated: from a reachable state with one active
connection and 769 = connections + IPROTO_MSG_MAX allocated messages, the
throttle check at the top of the read event passes (the count does not yet
exceed the cap), a five-byte PING frame is read and framed, and afterwards
770 messages are allocated, exceeding active_connections + IPROTO_MSG_MAX:
the message count is not bounded by the cap continuously. -/
theorem throttle_cap_counterexample :
    iproto_must_stop_input demoNet769 = false ∧
    ((iproto_connection_on_input demoCfg demoEnv 7 demoConn demoNet769
        (some [4, 1, 2, 3, 4])).map (fun r => r.net.msgCount)).getD 0 = 770 ∧
    demoNet769.connCount + IPROTO_MSG_MAX = 769 := by
  refine ⟨by decide, ?_, by decide⟩
  decide

/-- C9: if session creation or the on-connect trigger fails for a newly
accepted connection (idle, fd open, disconnect message held, nothing
unparsed), TX flags the connect message close_connection; the greeting hop
then writes the whole output buffer content — ending with the error
response — to the socket of the connection with a best-effort write, and
only then closes the connection and frees the connect message; no
greeting-path failure leaves the connection open. -/
theorem greeting_failure_closes (c : Conn) (sessionOk triggerOk : Bool)
    (errSize : Nat)
    (hfail : sessionOk = false ∨ triggerOk = false)
    (hidle : iproto_connection_is_idle c = true)
    (hfd : evio_has_fd c.inputW = true)
    (hd : c.hasDisconnectMsg = true)
    (hps : c.parseSize = 0) :
    (tx_process_connect c sessionOk triggerOk errSize).2.closeConnection = true ∧
    ((net_send_greeting (tx_process_connect c sessionOk triggerOk errSize).1
        (tx_process_connect c sessionOk triggerOk errSize).2).map Prod.snd =
      some [GEvent.socketWrite c.outputW.fd
              (obuf_size ((tx_process_connect c sessionOk triggerOk
                errSize).1.obufAt c.pIbuf)),
            GEvent.closedConn, GEvent.freedMsg]) ∧
    ((net_send_greeting (tx_process_connect c sessionOk triggerOk errSize).1
        (tx_process_connect c sessionOk triggerOk errSize).2).map
        (fun p => (evio_has_fd p.1.inputW, evio_has_fd p.1.outputW)) =
      some (false, false)) := by
  cases hsess : sessionOk
  · unfold tx_process_connect
    dsimp only
    rw [if_neg (by simp)]
    have hgr := net_send_greeting_close
      (c.setObufAt c.pIbuf
        { c.obufAt c.pIbuf with size := (c.obufAt c.pIbuf).size + errSize })
      (obuf_create_svp
        { c.obufAt c.pIbuf with size := (c.obufAt c.pIbuf).size + errSize })
      (by simp [hidle]) (by simpa using hfd) (by simpa using hd) (by simpa using hps)
    refine ⟨rfl, ?_, ?_⟩ <;> rw [hgr] <;> simp [evio_has_fd]
  · rcases hfail with h | h
    · exact absurd hsess (by rw [h]; exact Bool.false_ne_true)
    · subst h
      unfold tx_process_connect
      dsimp only
      rw [if_pos (by simp [hsess]), if_neg (by simp)]
      have hgr := net_send_greeting_close
        (Conn.setObufAt { c with sessionLive := true } c.pIbuf
          { c.obufAt c.pIbuf with
            size := (c.obufAt c.pIbuf).size + IPROTO_GREETING_SIZE + errSize })
        (obuf_create_svp
          { c.obufAt c.pIbuf with
            size := (c.obufAt c.pIbuf).size + IPROTO_GREETING_SIZE + errSize })
        (by simpa using hidle) (by simpa using hfd) (by simpa using hd)
        (by simpa using hps)
      refine ⟨rfl, ?_, ?_⟩ <;> rw [hgr] <;> simp [evio_has_fd]

/-- Witness for C9: a failed on-connect hook on the concrete fresh
connection emits the socket write of the 160-byte obuf (greeting plus
error) on fd 3, then the close, then the message free. -/
theorem greeting_failure_closes_witness :
    ((net_send_greeting (tx_process_connect demoConn true false 32).1
        (tx_process_connect demoConn true false 32).2).map Prod.snd) =
      some [GEvent.socketWrite 3 160, GEvent.closedConn, GEvent.freedMsg] :=
  (greeting_failure_closes demoConn true false 32 (Or.inr rfl) rfl rfl rfl rfl).2.1

/-- C10: a connection object is freed only when it is safe: the recycling
step succeeds exactly under the iproto_connection_delete assertions (idle,
both watcher fds gone, session destroyed, output buffers destroyed); the
disconnect pipeline started by a close that pushed the disconnect message
establishes those assertions after TX ran tx_process_disconnect; and
net_send_msg closes a connection only when the output fd is already gone
and the connection has just become idle after retiring the message, so no
in-flight message refers to a freed connection. -/
theorem delete_only_when_safe (c : Conn) (m : Msg) :
    (net_finish_disconnect c = some () ↔
       (iproto_connection_is_idle c = true ∧ evio_has_fd c.outputW = false ∧
        evio_has_fd c.inputW = false ∧ c.sessionLive = false ∧
        c.obufsDestroyed = true)) ∧
    (∀ c1 : Conn, evio_has_fd c.outputW = evio_has_fd c.inputW →
       iproto_connection_close c = some (c1, true) →
       net_finish_disconnect (tx_process_disconnect c1) = some ()) ∧
    (∀ r : SendRes, net_send_msg c m = some r → r.closedNow = true →
       evio_has_fd c.outputW = false ∧
       iproto_connection_is_idle (iproto_msg_retire c m) = true) := by
  refine ⟨?_, ?_, ?_⟩
  · unfold net_finish_disconnect iproto_connection_delete_ok
    constructor
    · intro h
      split_ifs at h with hcond
      simp only [Bool.and_eq_true, Bool.not_eq_true'] at hcond
      exact ⟨hcond.1.1.1.1, by simpa using hcond.1.1.1.2, by simpa using hcond.1.1.2,
             by simpa using hcond.1.2, hcond.2⟩
    · intro h
      obtain ⟨h1, h2, h3, h4, h5⟩ := h
      rw [if_pos (by simp [h1, h2, h3, h4, h5])]
  · intro c1 hsym hcl
    unfold iproto_connection_close at hcl
    dsimp only at hcl
    split_ifs at hcl with h1 h2 h3 h4 h5 <;> simp at hcl
    · subst hcl
      unfold net_finish_disconnect iproto_connection_delete_ok tx_process_disconnect
      rw [if_pos ?hc1]
      case hc1 =>
        unfold iproto_connection_is_idle at h2 ⊢
        simp_all [evio_has_fd]
    · subst hcl
      unfold net_finish_disconnect iproto_connection_delete_ok tx_process_disconnect
      rw [if_pos ?hc2]
      case hc2 =>
        have hofd : evio_has_fd c.outputW = false := by
          rw [hsym]
          simpa using h1
        unfold iproto_connection_is_idle at h4
        simp_all [evio_has_fd, iproto_connection_is_idle]
  · intro r hr hcl
    unfold net_send_msg at hr
    dsimp only at hr
    split_ifs at hr with h1 h2
    · simp only [Option.some.injEq] at hr
      rw [← hr] at hcl
      simp at hcl
    · refine ⟨?_, h2⟩
      have hw : (iproto_msg_retire c m).outputW = c.outputW := by
        unfold iproto_msg_retire
        simp
      rw [← hw]
      simpa using h1
    · simp only [Option.some.injEq] at hr
      rw [← hr] at hcl
      simp at hcl

/-- Witness for C10: the concrete recycled-ready connection passes the
delete assertions. -/
theorem delete_only_when_safe_witness :
    net_finish_disconnect demoConnDead = some () :=
  ((delete_only_when_safe demoConnDead demoMsg).1).mpr (by decide)

end Iproto
